import Mathlib

/-!
# Verification of the Pose_detector_V2 playback pipeline

Shallow embedding of the core pipeline of the repository:
`src/core/video_processor.py` (worker loop, command flags, skip governor,
pacing and cleanup), `src/core/detector.py` (timestamp bookkeeping of
`PoseDetector`) and `src/core/utils.py` (`calculate_angle`).

Machine floats of the Python source are modelled with `ℚ` for the
governor, pacing and timestamp arithmetic (where every constant involved
in the concrete scenarios is exactly representable in binary floating
point, so the rational model agrees with the float execution) and with
`ℝ` for the trigonometric `calculate_angle`.
-/

namespace PoseV2

/-! ## Governor arithmetic (`src/core/video_processor.py`) -/

/-- The Python builtin `int(...)` applied to a number: truncation toward
zero. -/
def pyInt (q : ℚ) : ℤ := if 0 ≤ q then ⌊q⌋ else ⌈q⌉

/-- Models `target_fps = min(fps, 30.0)`, `video_processor.py`
line 120. -/
def targetFps (fps : ℚ) : ℚ := min fps 30

/-- Models `frame_skip_ratio = fps / target_fps if fps > target_fps else
1.0`, `video_processor.py` line 122. -/
def frameSkipRatio (fps : ℚ) : ℚ :=
  if fps > targetFps fps then fps / targetFps fps else 1

/-- Models `frames_to_read = max(1, int(frame_count * frame_skip_ratio) -
int((frame_count - 1) * frame_skip_ratio))`, `video_processor.py`
line 154. -/
def framesToRead (frame_count : ℤ) (r : ℚ) : ℤ :=
  max 1 (pyInt (frame_count * r) - pyInt ((frame_count - 1) * r))

/-- The decode position across governor iterations of the worker loop:
each iteration reads `framesToRead` frames in total (the skipped ones
plus the one emitted), and `frame_count` is then refreshed from
`cap.get(cv2.CAP_PROP_POS_FRAMES)` (`video_processor.py` line 163), so
the position fed to the next skip computation advances by the whole skip
amount. -/
def skipPos (r : ℚ) : ℕ → ℤ
  | 0 => 0
  | n + 1 => skipPos r n + framesToRead (skipPos r n) r

/-- The per-iteration frames-to-advance count on the `i`-th governor
iteration of the worker loop (no seek, playing throughout, starting at
`frame_count = 0`). -/
def codeSkip (r : ℚ) (i : ℕ) : ℤ := framesToRead (skipPos r i) r

/-- Sum of the per-iteration frames-to-advance counts over the first `N`
governor iterations of the worker loop. -/
def codeSkipSum (r : ℚ) (N : ℕ) : ℤ :=
  ∑ i ∈ Finset.range N, codeSkip r i

/-- The skip function of the spec evaluated at consecutive decode
positions `n = m+1, …, m+N` (position advancing by one per evaluation),
summed. -/
def specSkipSum (r : ℚ) (m N : ℕ) : ℤ :=
  ∑ i ∈ Finset.range N, framesToRead ((m : ℤ) + i + 1) r

/-! ## PoseDetector timestamp bookkeeping (`src/core/detector.py`) -/

/-- Observable state of a `PoseDetector`: whether `_landmarker` is
non-`None`, and the value of `_frame_timestamp_ms`. -/
structure DetectorState where
  initialized : Bool
  ts : ℤ
deriving Repr, DecidableEq

/-- Models `PoseDetector.__init__`: no landmarker yet, timestamp 0. -/
def mkDetector : DetectorState := ⟨false, 0⟩

/-- Models `PoseDetector._ensure_initialized`: creates the landmarker and
zeroes the timestamp on first use only. -/
def ensureInitialized (d : DetectorState) : DetectorState :=
  if d.initialized then d else ⟨true, 0⟩

/-- Models `self._frame_timestamp_ms += int(1000.0 / fps)`, `detector.py`
line 83. -/
def tsIncrement (fps : ℚ) : ℤ := pyInt (1000 / fps)

/-- Timestamp effect of `PoseDetector.process_frame(frame, fps)`:
ensure-initialize, then advance the timestamp by `int(1000.0 / fps)`;
`detect_for_video` is then called at the advanced timestamp. -/
def processFrameTs (d : DetectorState) (fps : ℚ) : DetectorState :=
  let d' := ensureInitialized d
  ⟨d'.initialized, d'.ts + tsIncrement fps⟩

/-- Models `PoseDetector.reset` (`detector.py` lines 135-140): closes the
landmarker and zeroes the timestamp. -/
def DetectorState.reset (_ : DetectorState) : DetectorState := ⟨false, 0⟩

/-- Models `PoseDetector.release` (`detector.py` lines 142-146): closes
the landmarker; the timestamp field is left untouched. -/
def DetectorState.release (d : DetectorState) : DetectorState := ⟨false, d.ts⟩

/-! ## Command flags and caller-facing commands
(`src/core/video_processor.py`) -/

/-- The mutex-guarded command flags of `VideoProcessor`. -/
structure CmdState where
  is_playing : Bool
  stop_requested : Bool
  seek_requested : Bool
  seek_target : ℤ
deriving Repr, DecidableEq

/-- Flag state after `VideoProcessor.__init__`. -/
def initState : CmdState := ⟨false, false, false, 0⟩

/-- Models `VideoProcessor.play` (lines 66-73): sets `_is_playing`,
clears `_stop_requested`; the thread start is not part of the flag
model. -/
def play (s : CmdState) : CmdState :=
  { s with is_playing := true, stop_requested := false }

/-- Models `VideoProcessor.pause` (lines 75-78). -/
def pause (s : CmdState) : CmdState := { s with is_playing := false }

/-- Models `VideoProcessor.set_position` (lines 80-84). -/
def set_position (t : ℤ) (s : CmdState) : CmdState :=
  { s with seek_requested := true, seek_target := t }

/-- Models `VideoProcessor.stop_playback` (lines 86-92), flag part; the
bounded `wait(3000)` is a caller-side join and mutates no flag. -/
def stop_playback (s : CmdState) : CmdState :=
  { s with is_playing := false, stop_requested := true }

/-- The caller-facing commands that touch the command flags. -/
inductive Cmd where
  | play
  | pause
  | seek (t : ℤ)
  | stop
deriving Repr, DecidableEq

def applyCmd : Cmd → CmdState → CmdState
  | .play, s => play s
  | .pause, s => pause s
  | .seek t, s => set_position t s
  | .stop, s => stop_playback s

def applyCmds (cs : List Cmd) (s : CmdState) : CmdState :=
  cs.foldl (fun s c => applyCmd c s) s

/-! ## Worker cleanup structure (`run` / `_run_internal`) -/

/-- How the worker loop ends. -/
inductive LoopExit where
  | finished
  | stopped
  | error
deriving Repr, DecidableEq

/-- What the worker leaves behind after the loop ends. -/
structure RunOutcome where
  capReleased : Bool
  detectorReleased : Bool
  errorEmitted : Bool
  final : CmdState
deriving Repr, DecidableEq

/-- Cleanup structure of `run` and `_run_internal` (`video_processor.py`
lines 98-105 and 194-201): the `finally` block releases the capture and
the detector on every way out of the loop; the flag-reset block sits
after the whole `try` statement, so it runs only when `_run_internal`
returns normally, while an exception skips it, propagates to `run`, and
is turned into an `error_occurred` emission there. -/
def runCleanup (e : LoopExit) (s : CmdState) : RunOutcome :=
  match e with
  | .error => ⟨true, true, true, s⟩
  | _ => ⟨true, true, false,
      { s with is_playing := false, stop_requested := false }⟩

/-! ## load_video (`video_processor.py` lines 48-64) -/

/-- What `cv2.VideoCapture(path)` reports during the probe. -/
structure Probe where
  opened : Bool
  width : ℤ
  height : ℤ
  fps : ℚ
  total_frames : ℤ
deriving Repr, DecidableEq

/-- Controller-side state touched by `load_video`. -/
structure LoaderState where
  video_path : Option String
  total_frames : ℤ
  cmd : CmdState
  threadRunning : Bool
deriving Repr, DecidableEq

/-- Models `VideoProcessor.load_video`: on a failed open it returns
`(False, 0, 0, 0.0, 0)` without touching any state; on success it stores
the path and the frame count (the branch on `fps = 0` models the
falsy-default `fps or 30.0`). -/
def load_video (p : Probe) (path : String) (s : LoaderState) :
    (Bool × ℤ × ℤ × ℚ × ℤ) × LoaderState :=
  if p.opened then
    let fps := if p.fps = 0 then 30 else p.fps
    ((true, p.width, p.height, fps, p.total_frames),
     { s with video_path := some path, total_frames := p.total_frames })
  else
    ((false, 0, 0, 0, 0), s)

/-! ## Pacing (`video_processor.py` lines 184-187) -/

/-- The time actually spent sleeping by the pacing step:
`sleep_time = frame_delay - elapsed; if sleep_time > 0:
time.sleep(sleep_time)`; not sleeping is sleeping for 0. -/
def sleepDuration (frame_delay elapsed : ℚ) : ℚ :=
  if frame_delay - elapsed > 0 then frame_delay - elapsed else 0

/-! ## One worker-loop iteration (`_run_internal`, lines 128-192) -/

/-- Externally visible actions of one loop iteration, in order. -/
inductive Action where
  | capSeek (pos : ℤ)
  | detReset
  | capRead (pos : ℤ) (ok : Bool)
  | emitPosition (idx : ℤ)
  | detDetect (ts : ℤ)
  | emitFrame
  | emitFinished
  | sleepIdle
deriving Repr, DecidableEq

/-- Models `cap.read()` on a source with `total` frames: succeeds exactly
at positions `0 ≤ pos < total` and advances the position by one. -/
def capRead1 (total pos : ℤ) : ℤ × Bool :=
  if 0 ≤ pos ∧ pos < total then (pos + 1, true) else (pos, false)

/-- Models the `for _ in range(frames_to_read - 1): cap.read()` skip loop
(`video_processor.py` lines 155-156). -/
def skipReads (total : ℤ) : ℕ → ℤ → ℤ × List Action
  | 0, pos => (pos, [])
  | k + 1, pos =>
      let r := capRead1 total pos
      let rest := skipReads total k r.1
      (rest.1, Action.capRead pos r.2 :: rest.2)

/-- Worker-side state carried across loop iterations. -/
structure IterState where
  cmd : CmdState
  pos : ℤ
  frame_count : ℤ
  det : DetectorState
deriving Repr, DecidableEq

/-- Outcome of one loop iteration. -/
inductive IterExit where
  | continued
  | stopped
  | finished
deriving Repr, DecidableEq

/-- One iteration of the `while cap.isOpened()` loop of `_run_internal`
(`video_processor.py` lines 128-192): poll and clear the seek flag under
the mutex, break on a stop request, honour a pending seek (reposition,
set `frame_count`, reset the detector), idle briefly when paused with no
seek, otherwise apply the skip policy (suspended on a seek iteration),
read one frame, refresh `frame_count` from the capture position, and run
detection; pacing sleeps and fps emission carry no flag or position
effect and are omitted. -/
def loopIter (fps : ℚ) (total : ℤ) (s : IterState) :
    IterState × List Action × IterExit :=
  if s.cmd.stop_requested then (s, [], .stopped)
  else
    let playing := s.cmd.is_playing
    let seek_req := s.cmd.seek_requested
    let seek_tgt := s.cmd.seek_target
    let cmd := { s.cmd with seek_requested := false }
    let pos := if seek_req then seek_tgt else s.pos
    let frame_count := if seek_req then seek_tgt else s.frame_count
    let det := if seek_req then s.det.reset else s.det
    let acts : List Action :=
      if seek_req then [Action.capSeek seek_tgt, Action.detReset] else []
    if playing = false ∧ seek_req = false then
      (⟨cmd, pos, frame_count, det⟩, acts ++ [Action.sleepIdle], .continued)
    else
      let target := targetFps fps
      let skip :=
        if seek_req = false ∧ fps > target then
          skipReads total (framesToRead frame_count (frameSkipRatio fps) - 1).toNat pos
        else (pos, [])
      let read := capRead1 total skip.1
      if read.2 = false then
        (⟨cmd, read.1, frame_count, det⟩,
         acts ++ skip.2 ++ [Action.capRead skip.1 false, Action.emitFinished],
         .finished)
      else
        let det' := processFrameTs det target
        (⟨cmd, read.1, read.1, det'⟩,
         acts ++ skip.2 ++ [Action.capRead skip.1 true,
           Action.emitPosition read.1, Action.detDetect det'.ts,
           Action.emitFrame],
         .continued)

/-- A concrete iteration state with a pending seek to frame 3, used to
instantiate the seek theorem. -/
def seekDemoState : IterState := ⟨⟨true, false, true, 3⟩, 0, 0, ⟨true, 500⟩⟩

/-! ## calculate_angle (`src/core/utils.py`) -/

/-- Models `np.arctan2(y, x)`: the argument of the complex number
`x + y·i`, lying in `(-π, π]`, with `arctan2(0, 0) = 0`. -/
noncomputable def atan2 (y x : ℝ) : ℝ := Complex.arg ⟨x, y⟩

/-- Models `calculate_angle` from `src/core/utils.py`: the absolute
difference of the two ray angles in degrees, folded to `360 − θ` when
above 180. -/
noncomputable def calculate_angle (a b c : ℝ × ℝ) : ℝ :=
  let radians := atan2 (c.2 - b.2) (c.1 - b.1) - atan2 (a.2 - b.2) (a.1 - b.1)
  let angle := |radians * 180 / Real.pi|
  if angle > 180 then 360 - angle else angle

/-! ## Helper lemmas -/

lemma codeSkipSum_eq_skipPos (r : ℚ) (N : ℕ) :
    codeSkipSum r N = skipPos r N := by
  induction N with
  | zero => simp [codeSkipSum, skipPos]
  | succ n ih =>
      rw [codeSkipSum, Finset.sum_range_succ, ← codeSkipSum, ih]
      simp [skipPos, codeSkip]

lemma pyInt_of_nonneg {q : ℚ} (h : 0 ≤ q) : pyInt q = ⌊q⌋ := if_pos h

/-- At a decode position `n ≥ 1` and ratio `r ≥ 1`, the `max 1` guard and
the toward-zero truncation in `framesToRead` are inert: the count is the
plain floor difference. -/
lemma framesToRead_of_consec {n : ℤ} {r : ℚ} (hn : 1 ≤ n) (hr : 1 ≤ r) :
    framesToRead n r = ⌊(n : ℚ) * r⌋ - ⌊((n : ℚ) - 1) * r⌋ := by
  have h0r : (0 : ℚ) ≤ r := le_trans zero_le_one hr
  have h1n : (1 : ℚ) ≤ (n : ℚ) := by exact_mod_cast hn
  have h1 : (0 : ℚ) ≤ (n : ℚ) * r := by positivity
  have h2 : (0 : ℚ) ≤ ((n : ℚ) - 1) * r := by
    have : (0 : ℚ) ≤ (n : ℚ) - 1 := by linarith
    positivity
  have hfloor : ⌊((n : ℚ) - 1) * r⌋ + 1 ≤ ⌊(n : ℚ) * r⌋ := by
    have step : ((n : ℚ) - 1) * r + 1 ≤ (n : ℚ) * r := by nlinarith
    calc ⌊((n : ℚ) - 1) * r⌋ + 1
        = ⌊((n : ℚ) - 1) * r + 1⌋ := (Int.floor_add_one _).symm
      _ ≤ ⌊(n : ℚ) * r⌋ := Int.floor_le_floor step
  unfold framesToRead
  rw [pyInt_of_nonneg h1, pyInt_of_nonneg h2]
  omega

/-- Evaluated at consecutive positions, the skip function telescopes
exactly. -/
lemma specSkipSum_eq {r : ℚ} (hr : 1 ≤ r) (m N : ℕ) :
    specSkipSum r m N = ⌊((m + N : ℕ) : ℚ) * r⌋ - ⌊((m : ℕ) : ℚ) * r⌋ := by
  induction N with
  | zero => simp [specSkipSum]
  | succ k ih =>
      rw [specSkipSum, Finset.sum_range_succ, ← specSkipSum, ih]
      rw [framesToRead_of_consec (by omega) hr]
      push_cast
      ring_nf

lemma specSkipSum_drift {r : ℚ} (hr : 1 ≤ r) (m N : ℕ) :
    |specSkipSum r m N - ⌊((N : ℕ) : ℚ) * r⌋| ≤ 1 := by
  rw [specSkipSum_eq hr]
  have h1 : ⌊((m : ℕ) : ℚ) * r⌋ + ⌊((N : ℕ) : ℚ) * r⌋ ≤ ⌊((m + N : ℕ) : ℚ) * r⌋ := by
    calc ⌊((m : ℕ) : ℚ) * r⌋ + ⌊((N : ℕ) : ℚ) * r⌋
        ≤ ⌊((m : ℕ) : ℚ) * r + ((N : ℕ) : ℚ) * r⌋ := Int.le_floor_add _ _
      _ = ⌊((m + N : ℕ) : ℚ) * r⌋ := by push_cast; ring_nf
  have h2 : ⌊((m + N : ℕ) : ℚ) * r⌋ - 1 ≤ ⌊((m : ℕ) : ℚ) * r⌋ + ⌊((N : ℕ) : ℚ) * r⌋ := by
    have hb := Int.le_floor_add_floor (((m : ℕ) : ℚ) * r) (((N : ℕ) : ℚ) * r)
    have heq : ⌊((m : ℕ) : ℚ) * r + ((N : ℕ) : ℚ) * r⌋ = ⌊((m + N : ℕ) : ℚ) * r⌋ := by
      push_cast; ring_nf
    omega
  rw [abs_le]
  omega

/-- A source faster than the target pins the target to 30 fps and makes
the ratio at least 1. -/
lemma frameSkipRatio_of_fast {fps : ℚ} (h : targetFps fps < fps) :
    targetFps fps = 30 ∧ 1 ≤ frameSkipRatio fps := by
  have h30 : (30 : ℚ) < fps := by
    rcases min_lt_iff.mp h with h' | h'
    · exact absurd h' (lt_irrefl fps)
    · exact h'
  have htgt : targetFps fps = 30 := min_eq_right (le_of_lt h30)
  refine ⟨htgt, ?_⟩
  unfold frameSkipRatio
  rw [if_pos h, htgt]
  rw [le_div_iff₀ (by norm_num)]
  linarith

lemma atan2_mem (y x : ℝ) : -Real.pi < atan2 y x ∧ atan2 y x ≤ Real.pi :=
  ⟨Complex.neg_pi_lt_arg _, Complex.arg_le_pi _⟩

lemma atan2_zero_zero : atan2 0 0 = 0 := by
  have h : (⟨0, 0⟩ : ℂ) = 0 := by
    apply Complex.ext <;> simp
  rw [atan2, h, Complex.arg_zero]

/-- The folded absolute angle difference lands in `[0, 180]` for every
input, degenerate ones included. -/
lemma calculate_angle_mem (a b c : ℝ × ℝ) :
    0 ≤ calculate_angle a b c ∧ calculate_angle a b c ≤ 180 := by
  have hpi := Real.pi_pos
  unfold calculate_angle
  dsimp only
  set t1 := atan2 (c.2 - b.2) (c.1 - b.1) with ht1
  set t2 := atan2 (a.2 - b.2) (a.1 - b.1) with ht2
  obtain ⟨h1l, h1r⟩ := atan2_mem (c.2 - b.2) (c.1 - b.1)
  obtain ⟨h2l, h2r⟩ := atan2_mem (a.2 - b.2) (a.1 - b.1)
  rw [← ht1] at h1l h1r
  rw [← ht2] at h2l h2r
  have habs : |t1 - t2| < 2 * Real.pi := by
    rw [abs_lt]; constructor <;> linarith
  have hangle_eq : |(t1 - t2) * 180 / Real.pi| = |t1 - t2| * 180 / Real.pi := by
    rw [abs_div, abs_mul, abs_of_pos hpi]
    norm_num
  have hnonneg : 0 ≤ |(t1 - t2) * 180 / Real.pi| := abs_nonneg _
  have hlt : |(t1 - t2) * 180 / Real.pi| < 360 := by
    rw [hangle_eq, div_lt_iff₀ hpi]
    nlinarith
  split
  · constructor <;> [linarith; linarith]
  · rename_i h
    push_neg at h
    exact ⟨hnonneg, h⟩

/-- The folded absolute angle difference is symmetric in the two outer
points, for every input. -/
lemma calculate_angle_comm (a b c : ℝ × ℝ) :
    calculate_angle a b c = calculate_angle c b a := by
  unfold calculate_angle
  dsimp only
  have h : (atan2 (a.2 - b.2) (a.1 - b.1) - atan2 (c.2 - b.2) (c.1 - b.1)) * 180 / Real.pi
      = -((atan2 (c.2 - b.2) (c.1 - b.1) - atan2 (a.2 - b.2) (a.1 - b.1)) * 180 / Real.pi) := by
    ring
  rw [h, abs_neg]

/-! ## Claim theorems -/

/-- C1: after `set_position(frame_index)` with a valid target and no
pending stop, the very next worker-loop iteration reads its frame at
source position `frame_index` (the skip policy is suspended: the one and
only capture read of the iteration is at the seek target), the detector
reset runs exactly once and is the first detector action, the internal
timestamp counter is zeroed by the reset, and for an in-range target the
subsequent detect call happens in the same iteration at the first
timestamp after zero; the hypotheses place no constraint on
`is_playing`, so this holds while playing and while paused. -/
theorem seek_resets_detector (fps : ℚ) (total : ℤ) (s : IterState) (t : ℤ)
    (hstop : s.cmd.stop_requested = false)
    (hseek : s.cmd.seek_requested = true)
    (htgt : s.cmd.seek_target = t)
    (ht : 0 ≤ t) :
    ((loopIter fps total s).2.1).count Action.detReset = 1 ∧
    (∃ rest, (loopIter fps total s).2.1 =
      Action.capSeek t :: Action.detReset :: rest) ∧
    (∀ p ok, Action.capRead p ok ∈ (loopIter fps total s).2.1 → p = t) ∧
    (s.det.reset).ts = 0 ∧
    (t < total →
      Action.capRead t true ∈ (loopIter fps total s).2.1 ∧
      (loopIter fps total s).1.frame_count = t + 1 ∧
      (loopIter fps total s).1.det.ts = tsIncrement (targetFps fps) ∧
      Action.detDetect (tsIncrement (targetFps fps)) ∈ (loopIter fps total s).2.1) := by
  by_cases hlt : t < total
  · simp [loopIter, hstop, hseek, htgt, capRead1, ht, hlt, processFrameTs,
      ensureInitialized, DetectorState.reset, List.count_cons]
  · simp [loopIter, hstop, hseek, htgt, capRead1, ht, hlt, DetectorState.reset,
      List.count_cons]

/-- C1 witness: the seek theorem instantiated at a 30 fps source with 10
frames and a pending seek to frame 3. -/
theorem seek_resets_detector_witness :
    seekDemoState.cmd.stop_requested = false ∧
    seekDemoState.cmd.seek_requested = true ∧
    seekDemoState.cmd.seek_target = 3 ∧
    (0 : ℤ) ≤ 3 ∧
    (((loopIter 30 10 seekDemoState).2.1).count Action.detReset = 1 ∧
     (∃ rest, (loopIter 30 10 seekDemoState).2.1 =
       Action.capSeek 3 :: Action.detReset :: rest) ∧
     (∀ p ok, Action.capRead p ok ∈ (loopIter 30 10 seekDemoState).2.1 → p = 3) ∧
     (seekDemoState.det.reset).ts = 0 ∧
     ((3 : ℤ) < 10 →
       Action.capRead 3 true ∈ (loopIter 30 10 seekDemoState).2.1 ∧
       (loopIter 30 10 seekDemoState).1.frame_count = 3 + 1 ∧
       (loopIter 30 10 seekDemoState).1.det.ts = tsIncrement (targetFps 30) ∧
       Action.detDetect (tsIncrement (targetFps 30)) ∈
         (loopIter 30 10 seekDemoState).2.1)) :=
  ⟨rfl, rfl, rfl, by decide,
    seek_resets_detector 30 10 seekDemoState 3 rfl rfl rfl (by decide)⟩

/-- C2 counterexample: when the loop is left through an uncaught error,
the flag-reset block after the `try` statement is skipped, so
`stop_requested` is not reset to false — refuting the claim that every
exit path resets both flags. -/
theorem cleanup_error_keeps_flags_cex :
    ¬ ((runCleanup LoopExit.error (stop_playback (play initState))).final.stop_requested
        = false) := by
  decide

/-- C2 amended: on the normal end-of-stream and stop-request exits the
capture is released, the detector is released, no error is emitted and
both flags are reset; on the uncaught-error exit the capture and the
detector are still released (the `finally` block) and an error is
emitted, but the command flags are left exactly as they were. -/
theorem cleanup_all_paths_amended (s : CmdState) :
    runCleanup LoopExit.finished s =
      ⟨true, true, false, { s with is_playing := false, stop_requested := false }⟩ ∧
    runCleanup LoopExit.stopped s =
      ⟨true, true, false, { s with is_playing := false, stop_requested := false }⟩ ∧
    runCleanup LoopExit.error s = ⟨true, true, true, s⟩ :=
  ⟨rfl, rfl, rfl⟩

/-- C3 counterexample: `play()` issued after `stop_playback()` clears
`stop_requested` without any worker involvement — refuting the claim that
only the worker ever clears it. -/
theorem stop_flag_play_clears_cex :
    ¬ ((applyCmds [Cmd.play] (stop_playback initState)).stop_requested = true) := by
  decide

/-- C3 amended: after `stop_playback()`, `stop_requested` stays true
under every sequence of caller-facing commands that does not contain
`play()`; `play()` is the one caller-side command that clears it (the
worker additionally clears it at clean loop exit, see the cleanup
theorems). -/
theorem stop_flag_persistence_amended (cs : List Cmd) (hplay : Cmd.play ∉ cs)
    (s : CmdState) (h : s.stop_requested = true) :
    (applyCmds cs s).stop_requested = true := by
  induction cs generalizing s with
  | nil => exact h
  | cons c rest ih =>
      have hc : c ≠ Cmd.play := fun hc => hplay (hc ▸ List.mem_cons_self c rest)
      have hrest : Cmd.play ∉ rest := fun hm => hplay (List.mem_cons_of_mem c hm)
      cases c with
      | play => exact absurd rfl hc
      | pause => exact ih hrest _ h
      | seek t => exact ih hrest _ h
      | stop => exact ih hrest _ rfl

/-- C3 witness: pause, seek and a second stop after a stop all leave
`stop_requested` set. -/
theorem stop_flag_persistence_witness :
    Cmd.play ∉ [Cmd.pause, Cmd.seek 7, Cmd.stop] ∧
    (stop_playback initState).stop_requested = true ∧
    (applyCmds [Cmd.pause, Cmd.seek 7, Cmd.stop]
      (stop_playback initState)).stop_requested = true :=
  ⟨by decide, rfl,
    stop_flag_persistence_amended [Cmd.pause, Cmd.seek 7, Cmd.stop] (by decide)
      (stop_playback initState) rfl⟩

/-- C4 counterexample: a 45 fps source against the 30 fps target gives
`skip_ratio = 3/2`; over the first 7 governor iterations of the worker
loop the frames-to-advance counts sum to 12, while
`floor(7 · skip_ratio) = 10` — the deviation is 2, outside the claimed
`±1` bound, because the loop feeds the skip function the capture
position, which advances by the whole previous skip. -/
theorem skip_sum_drift_cex :
    targetFps 45 < 45 ∧ frameSkipRatio 45 = 3 / 2 ∧
    codeSkipSum (frameSkipRatio 45) 7 = 12 ∧
    ⌊((7 : ℕ) : ℚ) * frameSkipRatio 45⌋ = 10 ∧
    ¬ (|codeSkipSum (frameSkipRatio 45) 7 - ⌊((7 : ℕ) : ℚ) * frameSkipRatio 45⌋| ≤ 1) := by
  have hr : frameSkipRatio 45 = 3 / 2 := by
    norm_num [frameSkipRatio, targetFps]
  have hsum : codeSkipSum (frameSkipRatio 45) 7 = 12 := by
    rw [hr, codeSkipSum_eq_skipPos]
    norm_num [skipPos, codeSkip, framesToRead, pyInt, Int.ceil_neg]
  have hfl : ⌊((7 : ℕ) : ℚ) * frameSkipRatio 45⌋ = 10 := by
    rw [hr]; norm_num
  refine ⟨by norm_num [targetFps], hr, hsum, hfl, ?_⟩
  rw [hsum, hfl]
  norm_num

/-- C4 amended: when the source is faster than the target, the skip
function evaluated at consecutive decode positions `n = m+1, …, m+N` (the
formula of the spec, position advancing by one per evaluation) sums to
exactly `floor((m+N)·skip_ratio) − floor(m·skip_ratio)`, which is within
`±1` of `floor(N·skip_ratio)`; the worker loop itself, which advances the
position by the computed count, does not obey this bound (see the
counterexample). -/
theorem skip_sum_consecutive_amended (fps : ℚ) (h : targetFps fps < fps)
    (m N : ℕ) :
    specSkipSum (frameSkipRatio fps) m N =
      ⌊((m + N : ℕ) : ℚ) * frameSkipRatio fps⌋ -
        ⌊((m : ℕ) : ℚ) * frameSkipRatio fps⌋ ∧
    |specSkipSum (frameSkipRatio fps) m N -
      ⌊((N : ℕ) : ℚ) * frameSkipRatio fps⌋| ≤ 1 :=
  have hr := (frameSkipRatio_of_fast h).2
  ⟨specSkipSum_eq hr m N, specSkipSum_drift hr m N⟩

/-- C4 witness: the amended sum property instantiated at a 60 fps source
over the run `n = 3, 4, 5`. -/
theorem skip_sum_consecutive_witness :
    targetFps 60 < 60 ∧
    (specSkipSum (frameSkipRatio 60) 2 3 =
      ⌊((2 + 3 : ℕ) : ℚ) * frameSkipRatio 60⌋ -
        ⌊((2 : ℕ) : ℚ) * frameSkipRatio 60⌋ ∧
    |specSkipSum (frameSkipRatio 60) 2 3 -
      ⌊((3 : ℕ) : ℚ) * frameSkipRatio 60⌋| ≤ 1) :=
  ⟨by decide, skip_sum_consecutive_amended 60 (by decide) 2 3⟩

/-- C5: for a 60 fps source the target is `min(60, 30) = 30`, the skip
ratio is 2, and the frames-to-advance counts of the first four decode
iterations of the worker loop are 2, 2, 2, 2. -/
theorem skip_sequence_60fps :
    targetFps 60 = 30 ∧ frameSkipRatio 60 = 2 ∧
    codeSkip (frameSkipRatio 60) 0 = 2 ∧ codeSkip (frameSkipRatio 60) 1 = 2 ∧
    codeSkip (frameSkipRatio 60) 2 = 2 ∧ codeSkip (frameSkipRatio 60) 3 = 2 := by
  have hr : frameSkipRatio 60 = 2 := by norm_num [frameSkipRatio, targetFps]
  rw [hr]
  norm_num [targetFps, codeSkip, skipPos, framesToRead, pyInt, Int.ceil_neg]

/-- C6 counterexample: at `fps = 30` the timestamp advances by
`int(1000.0 / 30.0) = 33` milliseconds, which differs from the exact
`1000 / 30 = 100/3` claimed by the spec. -/
theorem timestamp_exact_advance_cex :
    ¬ ((((processFrameTs ⟨true, 0⟩ 30).ts - (⟨true, 0⟩ : DetectorState).ts : ℤ) : ℚ)
        = 1000 / 30) := by
  norm_num [processFrameTs, ensureInitialized, tsIncrement, pyInt]

/-- C6 amended: each `process_frame(frame, fps)` call with `fps > 0`
advances the internal timestamp by exactly `⌊1000 / fps⌋` milliseconds
(the truncation of `1000 / fps`, not the exact quotient); the timestamp
never decreases across calls on an initialized detector; and `reset()`
sets the counter back to 0, so the first detect after a reset happens at
`⌊1000 / fps⌋`. -/
theorem timestamp_advance_amended (d : DetectorState) (fps : ℚ) (h : 0 < fps) :
    (processFrameTs d fps).ts = (ensureInitialized d).ts + ⌊(1000 / fps : ℚ)⌋ ∧
    (d.initialized = true → d.ts ≤ (processFrameTs d fps).ts) ∧
    (DetectorState.reset d).ts = 0 ∧
    (processFrameTs (DetectorState.reset d) fps).ts = ⌊(1000 / fps : ℚ)⌋ := by
  have hq : (0 : ℚ) ≤ 1000 / fps := by positivity
  have hinc : tsIncrement fps = ⌊(1000 / fps : ℚ)⌋ := pyInt_of_nonneg hq
  have hpos : (0 : ℤ) ≤ ⌊(1000 / fps : ℚ)⌋ := Int.floor_nonneg.mpr hq
  refine ⟨?_, ?_, rfl, ?_⟩
  · simp [processFrameTs, hinc]
  · intro hd
    simp [processFrameTs, ensureInitialized, hd, hinc]
    omega
  · simp [processFrameTs, ensureInitialized, DetectorState.reset, hinc]

/-- C6 witness: the amended timestamp property instantiated at 25 fps on
an initialized detector sitting at 5 ms. -/
theorem timestamp_advance_witness :
    (0 : ℚ) < 25 ∧
    ((processFrameTs ⟨true, 5⟩ 25).ts =
      (ensureInitialized ⟨true, 5⟩).ts + ⌊(1000 / 25 : ℚ)⌋ ∧
    ((⟨true, 5⟩ : DetectorState).initialized = true →
      (⟨true, 5⟩ : DetectorState).ts ≤ (processFrameTs ⟨true, 5⟩ 25).ts) ∧
    (DetectorState.reset ⟨true, 5⟩).ts = 0 ∧
    (processFrameTs (DetectorState.reset ⟨true, 5⟩) 25).ts = ⌊(1000 / 25 : ℚ)⌋) :=
  ⟨by decide, timestamp_advance_amended ⟨true, 5⟩ 25 (by decide)⟩

/-- C7: when the probe cannot open the source, `load_video` returns the
failure tuple `(False, 0, 0, 0.0, 0)` and leaves the controller state —
path, frame count, command flags (in particular `is_playing`) and the
worker-thread indicator — completely unchanged. -/
theorem load_failure_clean (p : Probe) (path : String) (s : LoaderState)
    (h : p.opened = false) :
    load_video p path s = ((false, 0, 0, 0, 0), s) := by
  simp [load_video, h]

/-- C7 witness: loading a missing file against an idle controller. -/
theorem load_failure_clean_witness :
    (⟨false, 640, 480, 60, 100⟩ : Probe).opened = false ∧
    load_video ⟨false, 640, 480, 60, 100⟩ "missing.mp4" ⟨none, 0, initState, false⟩
      = ((false, 0, 0, 0, 0), ⟨none, 0, initState, false⟩) :=
  ⟨rfl, load_failure_clean ⟨false, 640, 480, 60, 100⟩ "missing.mp4"
    ⟨none, 0, initState, false⟩ rfl⟩

/-- C8: for non-degenerate triples (`a ≠ b` and `c ≠ b`),
`calculate_angle` is symmetric under swapping the two outer points and
its value lies in the closed interval `[0, 180]`. -/
theorem angle_symm_range (a b c : ℝ × ℝ) (h1 : a ≠ b) (h2 : c ≠ b) :
    calculate_angle a b c = calculate_angle c b a ∧
    0 ≤ calculate_angle a b c ∧ calculate_angle a b c ≤ 180 :=
  ⟨calculate_angle_comm a b c, calculate_angle_mem a b c⟩

/-- C8 witness: the symmetry and range at the right-angle triple
`a = (1, 0)`, `b = (0, 0)`, `c = (0, 1)`. -/
theorem angle_symm_range_witness :
    ((1 : ℝ), (0 : ℝ)) ≠ ((0 : ℝ), (0 : ℝ)) ∧
    ((0 : ℝ), (1 : ℝ)) ≠ ((0 : ℝ), (0 : ℝ)) ∧
    (calculate_angle (1, 0) (0, 0) (0, 1) = calculate_angle (0, 1) (0, 0) (1, 0) ∧
     0 ≤ calculate_angle (1, 0) (0, 0) (0, 1) ∧
     calculate_angle (1, 0) (0, 0) (0, 1) ≤ 180) :=
  ⟨by simp [Prod.ext_iff], by simp [Prod.ext_iff],
    angle_symm_range (1, 0) (0, 0) (0, 1)
      (by simp [Prod.ext_iff]) (by simp [Prod.ext_iff])⟩

/-- C9: the duration actually slept by the pacing step is never negative
and equals the clamp `max(0, frame_delay − elapsed)`: sleeping only when
the computed value is positive is exactly clamping at zero. -/
theorem sleep_nonneg_clamp (frame_delay elapsed : ℚ) :
    0 ≤ sleepDuration frame_delay elapsed ∧
    sleepDuration frame_delay elapsed = max 0 (frame_delay - elapsed) := by
  unfold sleepDuration
  split
  · rename_i h
    exact ⟨le_of_lt h, (max_eq_right (le_of_lt h)).symm⟩
  · rename_i h
    push_neg at h
    exact ⟨le_refl 0, (max_eq_left h).symm⟩

/-- C10: `calculate_angle` is total over the reals and lands in
`[0, 180]` on every triple, including the degenerate cases `a = b` or
`c = b` that the spec leaves undefined, because `arctan2(0, 0) = 0` and
the fold keeps the absolute difference inside that range. -/
theorem angle_total_range :
    atan2 0 0 = 0 ∧
    ∀ a b c : ℝ × ℝ,
      0 ≤ calculate_angle a b c ∧ calculate_angle a b c ≤ 180 :=
  ⟨atan2_zero_zero, fun a b c => calculate_angle_mem a b c⟩

end PoseV2
